import Mathlib

/-!
Verification development for the SQL agent backend.

This file gives a shallow embedding, in Lean, of the core NL-to-SQL
pipeline of the repository: SQL validation and execution
(backend/app/services/postgres_execution_service.py), LLM response
parsing and retry logic (backend/app/services/llm_service.py), the
knowledge-base similarity search (backend/app/services/knowledge_base_service.py),
the generation orchestrator (backend/app/services/query_service.py) and
the schema formatter (backend/app/services/schema_service.py).

Python strings are modelled as Lean strings (manipulated through their
character lists); Python floats are idealized as real numbers; the
external collaborators (the OpenAI client and the target database) are
modelled as explicit oracles describing their observable outcomes.
-/

deriving instance DecidableEq for Except

namespace SQLAgent

/-! ## Character and string helpers (Python string primitives) -/

/-- Python whitespace characters as used by str.strip and str.split. -/
def isPyWhitespace (c : Char) : Bool :=
  c = ' ' || c = '\t' || c = '\n' || c = '\r' || c = '\x0b' || c = '\x0c'

/-- Python str.strip on a character list. -/
def stripChars (cs : List Char) : List Char :=
  ((cs.dropWhile isPyWhitespace).reverse.dropWhile isPyWhitespace).reverse

/-- Python str.strip. -/
def strStrip (s : String) : String := String.mk (stripChars s.data)

/-- Python str.lower (ASCII). -/
def strLower (s : String) : String := String.mk (s.data.map Char.toLower)

/-- Python str.upper (ASCII). -/
def strUpper (s : String) : String := String.mk (s.data.map Char.toUpper)

/-- Index of the first occurrence of pattern pat in the list, starting from
offset i. Models Python str.find / str.index / the in operator. -/
def firstIdxAux (pat : List Char) : List Char → Nat → Option Nat
  | [], i => if pat = [] then some i else none
  | c :: rest, i =>
    if pat.isPrefixOf (c :: rest) then some i else firstIdxAux pat rest (i + 1)

/-- Index of the first occurrence of pat in s, if any. -/
def firstIdx (pat s : List Char) : Option Nat := firstIdxAux pat s 0

/-- Python substring containment test (pat in s). -/
def containsSub (pat s : List Char) : Bool := (firstIdx pat s).isSome

/-! ## Model of the sqlparse library contract

validate_sql relies on the third-party sqlparse tokenizer only through
sqlparse.parse (statement splitting) and Statement.get_type. These are
modelled here: parse splits the input after every top-level semicolon and
keeps any nonempty trailing fragment as an extra statement; get_type skips
leading whitespace and classifies the first keyword of the statement.
SQL comments and CTE type resolution are not modelled; no claim input
contains them. -/

/-- Statement splitting as performed by sqlparse.parse: a statement ends
just after each semicolon, and a nonempty remainder forms a final
statement. -/
def splitStatementsAux : List Char → List Char → List (List Char)
  | [], acc => if acc.isEmpty then [] else [acc.reverse]
  | c :: rest, acc =>
    if c = ';' then (c :: acc).reverse :: splitStatementsAux rest []
    else splitStatementsAux rest (c :: acc)

/-- List of parsed statements of a SQL text, as strings. -/
def sqlparseStatements (s : String) : List String :=
  (splitStatementsAux s.data []).map String.mk

/-- Statement-type keywords recognised by sqlparse get_type. -/
def typeKeywords : List String :=
  ["SELECT", "INSERT", "UPDATE", "DELETE", "DROP", "CREATE", "ALTER",
   "TRUNCATE", "GRANT", "REVOKE"]

/-- Model of sqlparse Statement.get_type: uppercase of the first
alphabetic word of the statement when it is a recognised DML/DDL keyword,
UNKNOWN otherwise. -/
def getTypeOf (stmt : List Char) : String :=
  let word := (stmt.dropWhile isPyWhitespace).takeWhile Char.isAlpha
  let up := String.mk (word.map Char.toUpper)
  if typeKeywords.contains up then up else "UNKNOWN"

/-! ## PostgresExecutionService.validate_sql -/

/-- Dangerous keywords scanned by validate_sql. -/
def dangerousKeywords : List String :=
  ["INSERT", "UPDATE", "DELETE", "DROP", "CREATE", "ALTER",
   "TRUNCATE", "GRANT", "REVOKE", "EXEC", "EXECUTE"]

/-- One iteration of the dangerous-keyword loop of validate_sql: the
keyword triggers a rejection when it occurs in the uppercased SQL and
either its first occurrence is before the first occurrence of SELECT, or
SELECT does not occur at all (the Python conditional expression
A < B if C else True). -/
def keywordTriggers (kw : String) (sqlUpper : List Char) : Bool :=
  match firstIdx kw.data sqlUpper with
  | none => false
  | some i =>
    match firstIdx "SELECT".data sqlUpper with
    | some j => decide (i < j)
    | none => true

/-- PostgresExecutionService.validate_sql: rejects empty input, multiple
statements, non-SELECT statement types, and dangerous keywords occurring
before the first SELECT. -/
def validate_sql (sql : String) : Except String Unit :=
  if strStrip sql = "" then Except.error "SQL query is empty"
  else
    let parsed := sqlparseStatements sql
    if parsed.length = 0 then Except.error "No SQL statement found"
    else if 1 < parsed.length then
      Except.error "Multiple SQL statements not allowed. Only single SELECT queries are supported."
    else
      let stmtType := getTypeOf (parsed.headD "").data
      if stmtType ≠ "SELECT" then
        Except.error ("Only SELECT queries are allowed. Found: " ++ stmtType ++ ".")
      else
        let sqlUpper := sql.data.map Char.toUpper
        match dangerousKeywords.find? (fun kw => keywordTriggers kw sqlUpper) with
        | some kw =>
          Except.error ("Forbidden SQL keyword detected: " ++ kw ++ ". Only SELECT queries are allowed.")
        | none => Except.ok ()

/-! ## LLMService._parse_table_names (llm_service.py)

Python regular expressions are modelled directly: the whole-word search
re.search(rf"\b{name}\b", text) through explicit word-boundary tests, and
re.sub(r"\d+[\.\)]\s*", " ", text) through an explicit scanner. -/

/-- Fuel-bounded body of the str.replace model; every step consumes at
least one character, so fuel equal to the input length is always
sufficient. -/
def replaceSubAux (pat rep : List Char) : Nat → List Char → List Char
  | 0, s => s
  | _ + 1, [] => []
  | fuel + 1, c :: rest =>
    if pat.isPrefixOf (c :: rest) ∧ pat ≠ [] then
      rep ++ replaceSubAux pat rep fuel (rest.drop (pat.length - 1))
    else
      c :: replaceSubAux pat rep fuel rest

/-- Python str.replace: replaces every non-overlapping occurrence of pat,
scanning left to right. -/
def replaceSub (pat rep s : List Char) : List Char := replaceSubAux pat rep s.length s

/-- Fuel-bounded body of the numbered-list-mark eraser. -/
def subNumberMarksAux : Nat → List Char → List Char
  | 0, s => s
  | _ + 1, [] => []
  | fuel + 1, c :: rest =>
    if c.isDigit then
      match rest.dropWhile Char.isDigit with
      | d :: rest2 =>
        if d = '.' ∨ d = ')' then
          ' ' :: subNumberMarksAux fuel (rest2.dropWhile isPyWhitespace)
        else (c :: rest.takeWhile Char.isDigit) ++ subNumberMarksAux fuel (d :: rest2)
      | [] => c :: rest.takeWhile Char.isDigit
    else c :: subNumberMarksAux fuel rest

/-- Model of re.sub(r"\d+[\.\)]\s*", " ", s): a maximal digit run
immediately followed by a period or closing parenthesis, together with
any following whitespace, is replaced by a single space. -/
def subNumberMarks (s : List Char) : List Char := subNumberMarksAux s.length s

/-- Python single-character str.split(sep): keeps empty fragments. -/
def splitOnChar (sep : Char) : List Char → List (List Char)
  | [] => [[]]
  | c :: rest =>
    let r := splitOnChar sep rest
    if c = sep then [] :: r
    else (c :: r.headD []) :: r.tail

/-- Fuel-bounded body of the no-argument str.split model. -/
def pyWhitespaceSplitAux : Nat → List Char → List (List Char)
  | 0, _ => []
  | _ + 1, [] => []
  | fuel + 1, c :: rest =>
    if isPyWhitespace c then pyWhitespaceSplitAux fuel rest
    else
      (c :: rest.takeWhile (fun d => !isPyWhitespace d)) ::
        pyWhitespaceSplitAux fuel (rest.dropWhile (fun d => !isPyWhitespace d))

/-- Python no-argument str.split: splits on whitespace runs, dropping
empty fragments. -/
def pyWhitespaceSplit (s : List Char) : List (List Char) :=
  pyWhitespaceSplitAux s.length s

/-- Regex word characters (\w): alphanumerics and underscore. -/
def isWordChar (c : Char) : Bool := c.isAlphanum || c = '_'

/-- Whether position p of s holds a word character (out of range counts
as non-word). -/
def wordAt (s : List Char) (p : Nat) : Bool :=
  match s.get? p with
  | some c => isWordChar c
  | none => false

/-- Regex word boundary \b at position p: the wordness of the characters
on the two sides differs. -/
def boundaryAt (s : List Char) (p : Nat) : Bool :=
  (if p = 0 then false else wordAt s (p - 1)) != wordAt s p

/-- Match of the pattern \b pat \b at position i of s. -/
def wholeWordAt (pat s : List Char) (i : Nat) : Bool :=
  pat.isPrefixOf (s.drop i) && boundaryAt s i && boundaryAt s (i + pat.length)

/-- re.search(rf"\b pat \b", s): some position matches. -/
def wholeWord (pat s : List Char) : Bool :=
  (List.range (s.length + 1)).any (fun i => wholeWordAt pat s i)

/-- Refusal patterns that make _parse_table_names raise before parsing. -/
def refusalPatterns : List String :=
  ["i cannot", "i can\x27t", "i don\x27t know", "i\x27m not sure", "unable to",
   "no tables", "not possible", "cannot determine", "insufficient information",
   "need more context"]

/-- Literal fragments removed (replaced by a space) from the response
before parsing. -/
def removeStrings : List String :=
  ["```", "sql", "SELECT", "FROM", "*", "-", "•",
   "1.", "2.", "3.", "4.", "5.", "6.", "7.", "8.", "9.", "10."]

/-- The full cleaning pipeline applied to the raw response: strip, remove
the literal fragments, then erase numbered-list marks. -/
def cleanResponse (response_text : String) : String :=
  let stripped := stripChars response_text.data
  let removed := removeStrings.foldl (fun cs r => replaceSub r.data [' '] cs) stripped
  String.mk (subNumberMarks removed)

/-- The dict comprehension mapping each lowercased valid table name to
its original spelling: a later duplicate key overwrites the value but
keeps the original insertion position. -/
def buildLowerMap (valid : List String) : List (String × String) :=
  valid.foldl (fun m name =>
    let key := strLower name
    if m.any (fun p => p.1 = key) then
      m.map (fun p => if p.1 = key then (key, name) else p)
    else m ++ [(key, name)]) []

/-- Method 1 of _parse_table_names: collect, in the order of the
valid-table map, every valid name occurring as a whole word in the
cleaned lowercased response. -/
def method1Matches (mapList : List (String × String)) (cleanedLower : List Char) :
    List String :=
  mapList.foldl (fun validated p =>
    if wholeWord p.1.data cleanedLower ∧ p.2 ∉ validated then validated ++ [p.2]
    else validated) []

/-- Candidate fragments for method 2: split on the first of comma,
newline, semicolon present, each fragment stripped and lowercased,
empties dropped; when that yields nothing, split on whitespace. -/
def candidateTables (cleaned : List Char) : List (List Char) :=
  let delimited :=
    if containsSub [','] cleaned then splitOnChar ',' cleaned
    else if containsSub ['\n'] cleaned then splitOnChar '\n' cleaned
    else if containsSub [';'] cleaned then splitOnChar ';' cleaned
    else []
  let norm := (delimited.map (fun p => (stripChars p).map Char.toLower)).filter
    (fun p => p ≠ [])
  if norm ≠ [] then norm
  else ((pyWhitespaceSplit cleaned).map (fun p => (stripChars p).map Char.toLower)).filter
    (fun p => p ≠ [])

/-- Dictionary lookup in the lowercase-name map. -/
def lookupMap (m : List (String × String)) (key : String) : Option String :=
  (m.find? (fun p => p.1 = key)).map (fun p => p.2)

/-- Method 2 validation loop of _parse_table_names: exact match against
the map, else the first valid name occurring as a whitespace-separated
word of the candidate. -/
def method2Validate (mapList : List (String × String)) (cands : List (List Char)) :
    List String :=
  cands.foldl (fun validated nameL =>
    match lookupMap mapList (String.mk nameL) with
    | some v => if v ∉ validated then validated ++ [v] else validated
    | none =>
      match mapList.find? (fun p => (pyWhitespaceSplit nameL).contains p.1.data) with
      | some p => if p.2 ∉ validated then validated ++ [p.2] else validated
      | none => validated) []

/-- Order-preserving duplicate removal (the seen-set loop at the end of
_parse_table_names). -/
def dedupPreserve (l : List String) : List String :=
  l.foldl (fun acc n => if n ∈ acc then acc else acc ++ [n]) []

/-- LLMService._parse_table_names: refusal detection, response cleaning,
whole-word regex matching against the valid table names, then
delimiter-based parsing as fallback; an error is raised when no valid
name is found. -/
def parse_table_names (response_text : String) (valid_table_names : List String) :
    Except String (List String) :=
  let cleaned0 := strStrip response_text
  if refusalPatterns.any (fun p => containsSub p.data (strLower cleaned0).data) then
    Except.error ("LLM could not determine tables: " ++ String.mk (cleaned0.data.take 100))
  else
    let cleaned := cleanResponse response_text
    let cleanedLower := cleaned.data.map Char.toLower
    let mapList := buildLowerMap valid_table_names
    let m1 := method1Matches mapList cleanedLower
    if m1 ≠ [] then Except.ok m1
    else
      let validated := method2Validate mapList (candidateTables cleaned.data)
      if validated = [] then
        Except.error "I couldn\x27t determine which database tables relate to your question."
      else Except.ok (dedupPreserve validated)

/-- Whether a valid table name occurs as a whole word in the cleaned,
lowercased response text: the matching condition of the regex path of
_parse_table_names. -/
def nameMatchesResponse (response v : String) : Bool :=
  wholeWord (strLower v).data ((cleanResponse response).data.map Char.toLower)

/-! ## LLMService._call_openai_with_retry and select_relevant_tables

The OpenAI chat-completion client is modelled as an oracle mapping the
index of each physical API call to its outcome: a successful response
text, a RateLimitError, an APIConnectionError, another APIError, or an
unexpected exception. The modelled service runs with the standard
(non-Azure) client, so the Azure temperature fallback branch is never
taken. -/

/-- Outcome of one physical OpenAI API call. -/
inductive CallOutcome where
  | ok (text : String)
  | rateLimit
  | connError
  | apiError (msg : String)
  | otherError (msg : String)
deriving DecidableEq, Repr

/-- Body of the retry loop of _call_openai_with_retry, recursing on the
number of loop iterations left. Returns the result (response text or the
LLMServiceUnavailableError message), the number of API calls made, and
the list of backoff delays slept between attempts, in seconds. -/
def callRetryGo (oracle : Nat → CallOutcome) (attempt : Nat) :
    Nat → Except String String × Nat × List Nat
  | 0 => (Except.error "Maximum retries exceeded", 0, [])
  | remaining + 1 =>
    match oracle attempt with
    | CallOutcome.ok t => (Except.ok t, 1, [])
    | CallOutcome.rateLimit =>
      if remaining = 0 then
        (Except.error "Rate limit exceeded after maximum retries", 1, [])
      else
        let r := callRetryGo oracle (attempt + 1) remaining
        (r.1, r.2.1 + 1, 2 ^ attempt :: r.2.2)
    | CallOutcome.connError =>
      if remaining = 0 then
        (Except.error "API connection failed after maximum retries", 1, [])
      else
        let r := callRetryGo oracle (attempt + 1) remaining
        (r.1, r.2.1 + 1, 2 ^ attempt :: r.2.2)
    | CallOutcome.apiError m =>
      if remaining = 0 then
        (Except.error ("OpenAI API error: " ++ m), 1, [])
      else
        let r := callRetryGo oracle (attempt + 1) remaining
        (r.1, r.2.1 + 1, 1 :: r.2.2)
    | CallOutcome.otherError m =>
      (Except.error ("Unexpected error: " ++ m), 1, [])

/-- LLMService._call_openai_with_retry: rate-limit and connection errors
back off for 2 to the attempt seconds and retry, other API errors back
off 1 second and retry, an unexpected error aborts at once, and every
error kind raises LLMServiceUnavailableError once max_retries attempts
are exhausted. -/
def call_openai_with_retry (oracle : Nat → CallOutcome) (maxRetries : Nat) :
    Except String String × Nat × List Nat :=
  callRetryGo oracle 0 maxRetries

/-- Terminal failures of select_relevant_tables: a propagated
LLMServiceUnavailableError, or the domain-specific ValueError raised
after the attempts are exhausted. -/
inductive SelectError where
  | unavailable (msg : String)
  | domainError (msg : String)
deriving DecidableEq, Repr

/-- The domain-specific failure message of select_relevant_tables,
including example valid phrasings. -/
def tableSelectionFailureMsg : String :=
  "I couldn\x27t identify which tables to query. This database contains logistics data (activities, drivers, trucks, customers, contracts). Try rephrasing with specific terms like:\n- \x27Show me all activities from today\x27\n- \x27List customers with their contracts\x27\n- \x27Find trucks assigned to drivers\x27"

/-- Body of the outer retry loop of select_relevant_tables, recursing on
the outer attempts left and threading the index of the next physical API
call. Only empty responses and parse failures (ValueError) are retried;
an error from _call_openai_with_retry propagates immediately because the
loop catches only ValueError. -/
def selectGo (oracle : Nat → CallOutcome) (valid : List String) (callIdx : Nat) :
    Nat → Except SelectError (List String)
  | 0 => Except.error (SelectError.domainError tableSelectionFailureMsg)
  | attemptsLeft + 1 =>
    match call_openai_with_retry (fun n => oracle (callIdx + n)) 3 with
    | (Except.error msg, _, _) => Except.error (SelectError.unavailable msg)
    | (Except.ok text, used, _) =>
      if strStrip text = "" then selectGo oracle valid (callIdx + used) attemptsLeft
      else
        match parse_table_names text valid with
        | Except.error _ => selectGo oracle valid (callIdx + used) attemptsLeft
        | Except.ok tables =>
          if tables.isEmpty then selectGo oracle valid (callIdx + used) attemptsLeft
          else Except.ok tables

/-- LLMService.select_relevant_tables: up to 3 outer attempts over the
call oracle. The service is modelled with a configured client (the
missing-API-key guard before the loop is a separate unavailable error
and is not modelled); the brief asyncio.sleep between attempts has no
observable effect in this embedding. -/
def select_relevant_tables (oracle : Nat → CallOutcome) (valid : List String) :
    Except SelectError (List String) :=
  selectGo oracle valid 0 3

/-! ## KnowledgeBaseService._cosine_similarity

Python floats are idealized as real numbers; math.sqrt is Real.sqrt.
The ValueError on a length mismatch is modelled by none. -/

/-- KnowledgeBaseService._cosine_similarity: dot product over the product
of the magnitudes, 0 when either magnitude is zero, none on a length
mismatch. -/
noncomputable def cosine_similarity (vec1 vec2 : List ℝ) : Option ℝ :=
  if vec1.length ≠ vec2.length then none
  else
    let dot_product := (List.zipWith (fun a b => a * b) vec1 vec2).sum
    let magnitude1 := Real.sqrt ((vec1.map (fun a => a * a)).sum)
    let magnitude2 := Real.sqrt ((vec2.map (fun b => b * b)).sum)
    if magnitude1 = 0 ∨ magnitude2 = 0 then some 0
    else some (dot_product / (magnitude1 * magnitude2))

/-- Knowledge-base example (KBExample of knowledge_base_service.py); the
embedding vector is idealized over the reals. -/
structure KBExample where
  filename : String
  title : String
  description : Option String
  sql : String
  embedding : Option (List ℝ)
deriving Inhabited

/-- The similarity-computation loop of find_similar_examples: examples
without an embedding are skipped, and a dimension mismatch (ValueError
from _cosine_similarity) propagates as none. -/
noncomputable def simsOf (examples : List KBExample) (qEmb : List ℝ) :
    Option (List (KBExample × ℝ)) :=
  examples.foldr (fun ex acc =>
    match acc, ex.embedding with
    | some rest, some emb =>
      match cosine_similarity qEmb emb with
      | some s => some ((ex, s) :: rest)
      | none => none
    | some rest, none => some rest
    | none, _ => none) (some [])

/-- KnowledgeBaseService.find_similar_examples: with a question embedding
and all example embeddings present, ranks the examples by cosine
similarity in stable descending order and returns the top K together
with the maximum similarity; otherwise returns the first K examples with
score 0. -/
noncomputable def find_similar_examples (examples : List KBExample)
    (question_embedding : Option (List ℝ)) (top_k : Nat) :
    Option (List KBExample × ℝ) :=
  match question_embedding with
  | none => some (examples.take top_k, 0)
  | some qEmb =>
    if ¬ (examples.all (fun ex => ex.embedding.isSome)) then
      some (examples.take top_k, 0)
    else
      match simsOf examples qEmb with
      | none => none
      | some sims =>
        let sorted := sims.mergeSort (fun x y => decide (y.2 ≤ x.2))
        let top_examples := (sorted.take top_k).map (fun p => p.1)
        let max_similarity := match sorted with | [] => (0 : ℝ) | x :: _ => x.2
        some (top_examples, max_similarity)

/-- Default RAG similarity threshold (config.py rag_similarity_threshold). -/
noncomputable def rag_similarity_threshold : ℝ := 0.85

/-- The short-circuit branch of QueryService._generate_sql after the
knowledge-base lookup: when the maximum similarity reaches the threshold
and examples were found, the first (highest-ranked) stored SQL is
returned verbatim; otherwise the Stage 3 synthesizer (generate_sql,
modelled as a function of the example SQL strings) is invoked. The
natural number counts generate_sql invocations. -/
noncomputable def generate_sql_short_circuit (kb_examples : List KBExample)
    (max_similarity threshold : ℝ) (synthesize : List String → String) :
    String × Nat :=
  if max_similarity ≥ threshold ∧ kb_examples.isEmpty = false then
    ((kb_examples.headD default).sql, 0)
  else (synthesize (kb_examples.map (fun ex => ex.sql)), 1)

/-- Concrete stored example used to exercise the short-circuit path. -/
noncomputable def sampleKBExample : KBExample :=
  { filename := "ex1.sql", title := "Example", description := none,
    sql := "SELECT 1;", embedding := some [(1 : ℝ)] }

/-- The knowledge-base stage of QueryService._generate_sql followed by
the short-circuit decision. -/
noncomputable def generate_sql_pipeline (examples : List KBExample)
    (qEmb : List ℝ) (threshold : ℝ) (synthesize : List String → String) :
    Option (String × Nat) :=
  match find_similar_examples examples (some qEmb) 3 with
  | none => none
  | some (kb, maxSim) =>
    some (generate_sql_short_circuit kb maxSim threshold synthesize)

/-! ## SchemaService.format_schema_for_llm (schema_service.py) -/

/-- Column record of the hierarchical schema. -/
structure SchemaColumn where
  name : String
  type : String
  nullable : Bool
  description : Option String
deriving DecidableEq, Repr

/-- Foreign-key record of the hierarchical schema. -/
structure SchemaFK where
  column : String
  references_table : String
  references_column : String
deriving DecidableEq, Repr

/-- Table record of the hierarchical schema. -/
structure SchemaTable where
  columns : List SchemaColumn
  primary_keys : List String
  foreign_keys : List SchemaFK
  description : Option String
deriving DecidableEq, Repr

/-- Schema as returned by load_schema/filter_schema_by_tables: the sorted
table-name list plus the name-to-table mapping (modelled as an
association list; table_names is a subset of the keys by construction). -/
structure Schema where
  table_names : List String
  tables : List (String × SchemaTable)
deriving DecidableEq, Repr

/-- One column line of format_schema_for_llm: the parts list joined by
single spaces, then the optional trailing description. A description that
is None or empty (falsy in Python) is omitted. -/
def formatColumnLine (table : SchemaTable) (col : SchemaColumn)
    (include_descriptions : Bool) : String :=
  let parts := [col.name, "(" ++ col.type] ++
    [if col.nullable then "NULL" else "NOT NULL"] ++
    (if table.primary_keys.contains col.name then ["PRIMARY KEY"] else []) ++
    [")"]
  let line := "    - " ++ String.intercalate " " parts
  if include_descriptions ∧ col.description.getD "" ≠ "" then
    line ++ " -- " ++ col.description.getD ""
  else line

/-- The lines produced for one table by format_schema_for_llm. -/
def formatTableLines (name : String) (table : SchemaTable)
    (include_descriptions include_foreign_keys : Bool) : List String :=
  ["\nTable: " ++ name] ++
  (if include_descriptions ∧ table.description.getD "" ≠ "" then
    ["  Description: " ++ table.description.getD ""]
  else []) ++
  ["  Columns:"] ++
  table.columns.map (fun col => formatColumnLine table col include_descriptions) ++
  (if include_foreign_keys ∧ table.foreign_keys ≠ [] then
    ["  Foreign Keys:"] ++ table.foreign_keys.map (fun fk =>
      "    - " ++ fk.column ++ " → " ++ fk.references_table ++ "." ++
        fk.references_column)
  else [])

/-- SchemaService.format_schema_for_llm: the per-table line blocks, in
table_names order, joined with newlines. -/
def format_schema_for_llm (schema : Schema)
    (include_descriptions include_foreign_keys : Bool) : String :=
  String.intercalate "\n"
    (schema.table_names.foldr (fun name acc =>
      match schema.tables.find? (fun p => p.1 = name) with
      | some p =>
        formatTableLines name p.2 include_descriptions include_foreign_keys ++ acc
      | none => acc) [])

/-- Concrete schema exercising the column-line, primary-key and
foreign-key rendering. -/
def sampleSchema : Schema :=
  { table_names := ["users"]
    tables := [("users",
      { columns :=
          [{ name := "id", type := "integer", nullable := false, description := none },
           { name := "role_id", type := "integer", nullable := true, description := none }]
        primary_keys := ["id"]
        foreign_keys :=
          [{ column := "role_id", references_table := "roles", references_column := "id" }]
        description := none })] }

/-! ## Query attempt data model (models/query.py, schemas/common.py) -/

/-- QueryStatus enumeration from schemas/common.py. -/
inductive QueryStatus where
  | notExecuted
  | failedGeneration
  | failedExecution
  | success
  | timeout
deriving DecidableEq, Repr

/-- QueryResult dataclass of postgres_execution_service.py. Cell values
are modelled as strings. -/
structure QueryResult where
  columns : List String
  rows : List (List String)
  total_rows : Nat
  execution_ms : Nat
deriving DecidableEq, Repr

/-- The mutable fields of the QueryAttempt ORM model that
execute_query_attempt touches. Timestamps are abstracted as naturals. -/
structure QueryAttempt where
  id : Nat
  generated_sql : Option String
  status : QueryStatus
  error_message : Option String
  executed_at : Option Nat
  execution_ms : Option Nat
deriving DecidableEq, Repr

/-- ResultsManifest ORM model; the JSON-serialized columns and rows are
modelled as the underlying lists. -/
structure ResultsManifest where
  query_attempt_id : Nat
  columns : List String
  rows : List (List String)
  total_rows : Nat
  page_size : Nat
  page_count : Nat
deriving DecidableEq, Repr

/-! ## PostgresExecutionService execution paths

The target database connection is modelled by an oracle describing the
observable outcome of sending the statement: a row set, an operational
timeout (an OperationalError whose message mentions a timeout), another
operational error, a programming error, a database error, or an
unexpected exception. -/

/-- Outcome of the underlying database call in execute_query. -/
inductive DbOutcome where
  | rowsReturned (columns : List String) (rows : List (List String)) (elapsed_ms : Nat)
  | operationalTimeout
  | operationalOther (msg : String)
  | programmingErr (msg : String)
  | databaseErr (msg : String)
  | unexpectedErr (msg : String)
deriving DecidableEq, Repr

/-- Exceptions raised by execute_query: QueryTimeoutError, DatabaseError
or ValueError, each with its message. -/
inductive ExecError where
  | queryTimeout (msg : String)
  | databaseError (msg : String)
  | valueError (msg : String)
deriving DecidableEq, Repr

/-- PostgresExecutionService.execute_query: validates the SQL, then maps
the database outcome to a QueryResult or to the distinct exception the
Python code raises for that outcome. -/
def execute_query (sql : String) (db : DbOutcome) (timeoutSec : Nat) :
    Except ExecError QueryResult :=
  match validate_sql sql with
  | Except.error m => Except.error (ExecError.valueError m)
  | Except.ok _ =>
    match db with
    | DbOutcome.rowsReturned cols rows ms =>
      Except.ok { columns := cols, rows := rows, total_rows := rows.length, execution_ms := ms }
    | DbOutcome.operationalTimeout =>
      Except.error (ExecError.queryTimeout
        ("Query execution exceeded " ++ toString timeoutSec ++
         " second timeout. Try narrowing your search or adding more filters."))
    | DbOutcome.operationalOther m =>
      Except.error (ExecError.databaseError ("Database connection error: " ++ m))
    | DbOutcome.programmingErr m =>
      Except.error (ExecError.valueError ("SQL syntax error: " ++ m))
    | DbOutcome.databaseErr m =>
      Except.error (ExecError.databaseError m)
    | DbOutcome.unexpectedErr m =>
      Except.error (ExecError.databaseError ("Unexpected database error: " ++ m))

/-- PostgresExecutionService._create_results_manifest: page size fixed at
500, page count computed as (total_rows + page_size - 1) // page_size. -/
def create_results_manifest (query_attempt_id : Nat) (result : QueryResult) :
    ResultsManifest :=
  let page_size := 500
  let page_count := (result.total_rows + page_size - 1) / page_size
  { query_attempt_id := query_attempt_id
    columns := result.columns
    rows := result.rows
    total_rows := result.total_rows
    page_size := page_size
    page_count := page_count }

/-- How execute_query_attempt terminates: a ValueError raised before any
execution (missing SQL), a normal return, or a re-raised execution
exception. -/
inductive AttemptOutcome where
  | noSqlError (msg : String)
  | executed (result : QueryResult)
  | raised (e : ExecError)
deriving DecidableEq, Repr

/-- PostgresExecutionService.execute_query_attempt: returns the updated
attempt, the manifest created (if any), and how the call terminated.
A missing generated_sql (None or empty, both falsy in Python) raises
before the try block, leaving the attempt untouched; QueryTimeoutError,
DatabaseError and any other exception (including ValueError from
validation) all set status failed_execution before re-raising. -/
def execute_query_attempt (attempt : QueryAttempt) (db : DbOutcome)
    (timeoutSec now : Nat) :
    QueryAttempt × Option ResultsManifest × AttemptOutcome :=
  if attempt.generated_sql.getD "" = "" then
    (attempt, none, AttemptOutcome.noSqlError "Query attempt has no generated SQL")
  else
    match execute_query (attempt.generated_sql.getD "") db timeoutSec with
    | Except.ok result =>
      ({ attempt with
          status := QueryStatus.success
          executed_at := some now
          execution_ms := some result.execution_ms },
       some (create_results_manifest attempt.id result),
       AttemptOutcome.executed result)
    | Except.error (ExecError.queryTimeout m) =>
      ({ attempt with
          status := QueryStatus.failedExecution
          error_message := some "Query execution timeout" },
       none, AttemptOutcome.raised (ExecError.queryTimeout m))
    | Except.error (ExecError.databaseError m) =>
      ({ attempt with
          status := QueryStatus.failedExecution
          error_message := some m },
       none, AttemptOutcome.raised (ExecError.databaseError m))
    | Except.error (ExecError.valueError m) =>
      ({ attempt with
          status := QueryStatus.failedExecution
          error_message := some ("Unexpected error: " ++ m) },
       none, AttemptOutcome.raised (ExecError.valueError m))

end SQLAgent

namespace SQLAgent

/-! ## Helper lemmas -/

/-- A dangerous keyword occurring strictly before the first SELECT
occurrence makes the scan trigger. -/
theorem keywordTriggers_of_before (sql kw : String) (i j : Nat)
    (hk : firstIdx kw.data (sql.data.map Char.toUpper) = some i)
    (hs : firstIdx "SELECT".data (sql.data.map Char.toUpper) = some j)
    (hij : i < j) : keywordTriggers kw (sql.data.map Char.toUpper) = true := by
  unfold keywordTriggers
  rw [hk, hs]
  simpa using hij

/-- validate_sql returns an error whenever some dangerous keyword makes
the scan trigger, whatever path the earlier checks take. -/
theorem validate_sql_isOk_false_of_triggers (sql kw : String)
    (hmem : kw ∈ dangerousKeywords)
    (ht : keywordTriggers kw (sql.data.map Char.toUpper) = true) :
    (validate_sql sql).isOk = false := by
  unfold validate_sql
  dsimp only
  split
  · rfl
  split
  · rfl
  split
  · rfl
  split
  · rfl
  split
  · rfl
  · rename_i hnone
    rw [List.find?_eq_none] at hnone
    exact absurd ht (by simpa using hnone kw hmem)

/-- With pairwise-distinct lowercased names, the dict comprehension of
_parse_table_names builds one entry per name in list order. -/
theorem buildLowerMap_eq_map (valid : List String)
    (hnd : (valid.map strLower).Nodup) :
    buildLowerMap valid = valid.map (fun n => (strLower n, n)) := by
  have main : ∀ (l : List String) (acc : List (String × String)),
      (l.map strLower).Nodup →
      (∀ n ∈ l, ∀ p ∈ acc, p.1 ≠ strLower n) →
      List.foldl (fun m name =>
        let key := strLower name
        if m.any (fun p => p.1 = key) then
          m.map (fun p => if p.1 = key then (key, name) else p)
        else m ++ [(key, name)]) acc l
      = acc ++ l.map (fun n => (strLower n, n)) := by
    intro l
    induction l with
    | nil => intro acc _ _; simp
    | cons n rest ih =>
      intro acc hnd hdisj
      simp only [List.foldl_cons]
      have hn : (acc.any (fun p => p.1 = strLower n)) = false := by
        rw [List.any_eq_false]
        intro p hp
        simpa using hdisj n (by simp) p hp
      simp only [hn, Bool.false_eq_true, if_false]
      rw [ih (acc ++ [(strLower n, n)]) (by simpa using hnd.of_cons)]
      · simp
      · intro m hm p hp
        rcases List.mem_append.1 hp with h | h
        · exact hdisj m (List.mem_cons_of_mem _ hm) p h
        · simp only [List.mem_singleton] at h
          subst h
          intro hcontra
          have hc : strLower n = strLower m := hcontra
          have hnotin : strLower n ∉ rest.map strLower := by
            have h2 := hnd
            simp only [List.map_cons, List.nodup_cons] at h2
            exact h2.1
          exact hnotin (by rw [hc]; exact List.mem_map_of_mem _ hm)
  exact main valid [] hnd (by simp)

/-- The regex scan of method 1 collects exactly the matching names, in
valid-list order. -/
theorem method1Matches_eq_filter (l : List String) (cl : List Char)
    (hnd : l.Nodup) :
    method1Matches (l.map (fun n => (strLower n, n))) cl
      = l.filter (fun n => wholeWord (strLower n).data cl) := by
  have main : ∀ (l : List String) (acc : List String), l.Nodup →
      (∀ n ∈ l, n ∉ acc) →
      List.foldl (fun validated p =>
        if wholeWord p.1.data cl ∧ p.2 ∉ validated then validated ++ [p.2]
        else validated) acc (l.map (fun n => (strLower n, n)))
      = acc ++ l.filter (fun n => wholeWord (strLower n).data cl) := by
    intro l
    induction l with
    | nil => intro acc _ _; simp
    | cons n rest ih =>
      intro acc hnd hdisj
      simp only [List.map_cons, List.foldl_cons]
      by_cases hw : wholeWord (strLower n).data cl = true
      · rw [if_pos ⟨hw, hdisj n (by simp)⟩]
        rw [ih (acc ++ [n]) (List.nodup_cons.1 hnd).2]
        · simp [List.filter_cons, hw]
        · intro m hm
          simp only [List.mem_append, List.mem_singleton]
          push_neg
          exact ⟨hdisj m (List.mem_cons_of_mem _ hm),
            fun hcontra => (List.nodup_cons.1 hnd).1 (hcontra ▸ hm)⟩
      · rw [if_neg (by simp [hw])]
        rw [ih acc (List.nodup_cons.1 hnd).2
          (fun m hm => hdisj m (List.mem_cons_of_mem _ hm))]
        simp [List.filter_cons, hw]
  exact main l [] hnd (by simp)

/-- selectGo can only succeed with a nonempty table list. -/
theorem selectGo_ok_nonempty (oracle : Nat → CallOutcome) (valid : List String) :
    ∀ (attempts callIdx : Nat) (tables : List String),
    selectGo oracle valid callIdx attempts = Except.ok tables → tables ≠ [] := by
  intro attempts
  induction attempts with
  | zero =>
    intro callIdx tables h
    exact absurd h (by simp [selectGo])
  | succ n ih =>
    intro callIdx tables h
    unfold selectGo at h
    split at h
    · exact absurd h (by simp)
    · split at h
      · exact ih _ _ h
      · split at h
        · exact ih _ _ h
        · split at h
          · exact ih _ _ h
          · rename_i hne
            rw [Except.ok.injEq] at h
            subst h
            simpa [List.isEmpty_iff] using hne

/-- When every call yields a response that is empty or unparseable, every
outer attempt fails and selectGo ends with the domain-specific error. -/
theorem selectGo_all_bad (oracle : Nat → CallOutcome) (valid : List String)
    (hbad : ∀ n, ∃ t, oracle n = CallOutcome.ok t ∧
      (strStrip t = "" ∨ (parse_table_names t valid).isOk = false)) :
    ∀ (attempts callIdx : Nat),
      selectGo oracle valid callIdx attempts
        = Except.error (SelectError.domainError tableSelectionFailureMsg) := by
  intro attempts
  induction attempts with
  | zero => intro callIdx; rfl
  | succ n ih =>
    intro callIdx
    obtain ⟨t, hok, hb⟩ := hbad callIdx
    have hcall : call_openai_with_retry (fun k => oracle (callIdx + k)) 3
        = (Except.ok t, 1, []) := by
      unfold call_openai_with_retry callRetryGo
      simp [hok]
    unfold selectGo
    rw [hcall]
    by_cases hs : strStrip t = ""
    · simp only [hs, if_true]
      exact ih _
    · rcases hb with hb | hb
      · exact absurd hb hs
      · rcases hp : parse_table_names t valid with e | tb
        · simp only [hs, if_false, hp]
          exact ih _
        · rw [hp] at hb
          exact absurd hb (by simp [Except.isOk, Except.toBool])

/-- A sum of squares of reals is nonnegative. -/
theorem sum_sq_nonneg (v : List ℝ) : 0 ≤ ((v.map (fun a => a * a)).sum) :=
  List.sum_nonneg (by
    intro x hx
    rcases List.mem_map.1 hx with ⟨a, _, rfl⟩
    exact mul_self_nonneg a)

/-- A sum of squares with one nonzero entry is positive. -/
theorem sum_sq_pos (v : List ℝ) (h : ∃ x ∈ v, x ≠ 0) :
    0 < ((v.map (fun a => a * a)).sum) := by
  induction v with
  | nil => simp at h
  | cons a rest ih =>
    rcases h with ⟨x, hx, hxe⟩
    simp only [List.map_cons, List.sum_cons]
    rcases List.mem_cons.1 hx with rfl | hmem
    · have h1 : 0 < x * x := mul_self_pos.2 hxe
      have h2 := sum_sq_nonneg rest
      linarith
    · have h1 := ih ⟨x, hmem, hxe⟩
      have h2 : 0 ≤ a * a := mul_self_nonneg a
      linarith

/-! ## Claim theorems: SQL validation and execution -/

/-- C2: validate_sql accepts "SELECT * FROM t;"; rejects
"SELECT * FROM t; DROP TABLE t;" (multiple statements); rejects
"DELETE FROM t;" (non-SELECT statement type); accepts
"SELECT deleted_at FROM t;" (a dangerous keyword occurring only inside a
column name after the first SELECT is not rejected); rejects empty or
whitespace-only input; and rejects any input in which a dangerous keyword
occurs before the first SELECT. -/
theorem C2_validate_sql_spec :
    validate_sql "SELECT * FROM t;" = Except.ok () ∧
    (validate_sql "SELECT * FROM t; DROP TABLE t;").isOk = false ∧
    (validate_sql "DELETE FROM t;").isOk = false ∧
    validate_sql "SELECT deleted_at FROM t;" = Except.ok () ∧
    (∀ sql : String, strStrip sql = "" → (validate_sql sql).isOk = false) ∧
    (∀ sql kw : String, kw ∈ dangerousKeywords →
      (∃ i j, firstIdx kw.data (sql.data.map Char.toUpper) = some i ∧
        firstIdx "SELECT".data (sql.data.map Char.toUpper) = some j ∧ i < j) →
      (validate_sql sql).isOk = false) := by
  refine ⟨by decide, by decide, by decide, by decide, ?_, ?_⟩
  · intro sql h
    unfold validate_sql
    rw [if_pos h]
    rfl
  · rintro sql kw hmem ⟨i, j, hk, hs, hij⟩
    exact validate_sql_isOk_false_of_triggers sql kw hmem
      (keywordTriggers_of_before sql kw i j hk hs hij)

/-- C2 witness: the two universally quantified parts instantiated at
concrete inputs: the empty string is rejected, and a query with DROP
before the first SELECT is rejected. -/
theorem C2_validate_sql_spec_witness :
    (validate_sql "").isOk = false ∧
    (validate_sql "DROP TABLE t; SELECT 1;").isOk = false := by
  constructor
  · exact C2_validate_sql_spec.2.2.2.2.1 "" (by decide)
  · exact C2_validate_sql_spec.2.2.2.2.2 "DROP TABLE t; SELECT 1;" "DROP"
      (by decide) ⟨0, 14, by decide, by decide, by decide⟩

/-- C3 counterexample: for the response "orders, users" with valid tables
["users", "orders"], the names appear in the response in the order
orders, users, but _parse_table_names returns them in valid-table-list
order ["users", "orders"], so the output is not ordered by appearance in
the response. -/
theorem C3_order_counterexample :
    parse_table_names "orders, users" ["users", "orders"]
      = Except.ok ["users", "orders"] ∧
    parse_table_names "orders, users" ["users", "orders"]
      ≠ Except.ok ["orders", "users"] := by
  constructor
  · decide
  · decide

/-- C3 amended: for any response in which at least one valid name occurs
as a whole word after cleaning (and which is not a refusal), with
pairwise-distinct lowercased valid names, _parse_table_names returns
exactly the valid names matching the response, deduplicated, in the order
of the valid-table-name list (not the order of appearance in the
response); invalid content is dropped rather than causing failure. -/
theorem C3_parse_table_names_amended (response : String) (valid : List String)
    (hnd : (valid.map strLower).Nodup)
    (hnoref : (refusalPatterns.any
      (fun p => containsSub p.data (strLower (strStrip response)).data)) = false)
    (hsome : (valid.any (fun v => nameMatchesResponse response v)) = true) :
    parse_table_names response valid
      = Except.ok (valid.filter (fun v => nameMatchesResponse response v)) ∧
    (valid.filter (fun v => nameMatchesResponse response v)).Nodup ∧
    (∀ x ∈ valid.filter (fun v => nameMatchesResponse response v), x ∈ valid) ∧
    valid.filter (fun v => nameMatchesResponse response v) ≠ [] := by
  have hvnd : valid.Nodup := List.Nodup.of_map _ hnd
  have hfilter : method1Matches (buildLowerMap valid)
      ((cleanResponse response).data.map Char.toLower)
      = valid.filter (fun v => nameMatchesResponse response v) := by
    rw [buildLowerMap_eq_map valid hnd,
      method1Matches_eq_filter valid ((cleanResponse response).data.map Char.toLower) hvnd]
    rfl
  have hne : valid.filter (fun v => nameMatchesResponse response v) ≠ [] := by
    rcases List.any_eq_true.1 hsome with ⟨v, hv, hm⟩
    intro hcontra
    rw [List.filter_eq_nil_iff] at hcontra
    exact hcontra v hv hm
  refine ⟨?_, hvnd.filter _, fun x hx => List.mem_of_mem_filter hx, hne⟩
  unfold parse_table_names
  rw [if_neg (by simp [hnoref])]
  dsimp only
  rw [hfilter]
  rw [if_pos hne]

/-- C3 witness: the amended theorem instantiated at the response
"foo, users, bar" with valid tables ["users", "orders"]: the invalid
fragments foo and bar are dropped and exactly ["users"] is returned. -/
theorem C3_parse_table_names_amended_witness :
    parse_table_names "foo, users, bar" ["users", "orders"]
      = Except.ok (["users", "orders"].filter
          (fun v => nameMatchesResponse "foo, users, bar" v)) ∧
    (["users", "orders"].filter (fun v => nameMatchesResponse "foo, users, bar" v))
      = ["users"] :=
  ⟨(C3_parse_table_names_amended "foo, users, bar" ["users", "orders"]
      (by decide) (by decide) (by decide)).1, by decide⟩

/-- C8: with a rate-limit error on the first two calls and success on the
third, _call_openai_with_retry returns the same text a single successful
call returns, makes exactly 3 calls, and the backoff delays double
(1 second then 2 seconds); an all-rate-limit run is capped at 3 attempts;
an unexpected (non-retryable) error aborts after a single call. -/
theorem C8_retry_backoff (oracle : Nat → CallOutcome) (t : String)
    (h0 : oracle 0 = CallOutcome.rateLimit)
    (h1 : oracle 1 = CallOutcome.rateLimit)
    (h2 : oracle 2 = CallOutcome.ok t) :
    call_openai_with_retry oracle 3 = (Except.ok t, 3, [1, 2]) ∧
    (∀ oracle2 : Nat → CallOutcome, oracle2 0 = CallOutcome.ok t →
      call_openai_with_retry oracle2 3 = (Except.ok t, 1, [])) ∧
    (∀ oracle3 : Nat → CallOutcome, (∀ n, oracle3 n = CallOutcome.rateLimit) →
      call_openai_with_retry oracle3 3
        = (Except.error "Rate limit exceeded after maximum retries", 3, [1, 2])) ∧
    (∀ (oracle4 : Nat → CallOutcome) (m : String),
      oracle4 0 = CallOutcome.otherError m →
      call_openai_with_retry oracle4 3
        = (Except.error ("Unexpected error: " ++ m), 1, [])) := by
  refine ⟨?_, ?_, ?_, ?_⟩
  · simp [call_openai_with_retry, callRetryGo, h0, h1, h2]
  · intro oracle2 h
    simp [call_openai_with_retry, callRetryGo, h]
  · intro oracle3 h
    simp [call_openai_with_retry, callRetryGo, h 0, h 1, h 2]
  · intro oracle4 m h
    simp [call_openai_with_retry, callRetryGo, h]

/-- C8 witness: the theorem instantiated at a concrete oracle raising
RateLimitError twice then answering, a concrete always-successful oracle,
a concrete always-rate-limited oracle, and a concrete oracle raising an
unexpected error. -/
theorem C8_retry_backoff_witness :
    call_openai_with_retry
      (fun n => if n = 0 ∨ n = 1 then CallOutcome.rateLimit else CallOutcome.ok "SELECT 1;") 3
      = (Except.ok "SELECT 1;", 3, [1, 2]) ∧
    call_openai_with_retry (fun _ => CallOutcome.ok "SELECT 1;") 3
      = (Except.ok "SELECT 1;", 1, []) ∧
    call_openai_with_retry (fun _ => CallOutcome.rateLimit) 3
      = (Except.error "Rate limit exceeded after maximum retries", 3, [1, 2]) ∧
    call_openai_with_retry (fun _ => CallOutcome.otherError "boom") 3
      = (Except.error ("Unexpected error: " ++ "boom"), 1, []) := by
  have h := C8_retry_backoff
    (fun n => if n = 0 ∨ n = 1 then CallOutcome.rateLimit else CallOutcome.ok "SELECT 1;")
    "SELECT 1;" (by simp) (by simp) (by simp)
  exact ⟨h.1, h.2.1 (fun _ => CallOutcome.ok "SELECT 1;") rfl,
    h.2.2.1 (fun _ => CallOutcome.rateLimit) (fun _ => rfl),
    h.2.2.2 (fun _ => CallOutcome.otherError "boom") "boom" rfl⟩

/-- C7 counterexample: when the underlying LLM call fails with an
unexpected error, select_relevant_tables does not retry it as one of its
3 attempts and does not raise the domain-specific error: the
LLMServiceUnavailableError propagates at once (the loop catches only
ValueError). -/
theorem C7_llm_error_counterexample :
    select_relevant_tables (fun _ => CallOutcome.otherError "boom") ["users"]
      = Except.error (SelectError.unavailable ("Unexpected error: " ++ "boom")) ∧
    select_relevant_tables (fun _ => CallOutcome.otherError "boom") ["users"]
      ≠ Except.error (SelectError.domainError tableSelectionFailureMsg) := by
  constructor
  · rfl
  · decide

/-- C7 amended: select_relevant_tables never succeeds with an empty table
list, and when every attempt fails because the response is empty or
parses to zero valid names, all 3 attempts are consumed and the
domain-specific error (with example phrasings) is raised; an error of the
LLM call itself instead propagates as an LLM-unavailable failure. -/
theorem C7_select_never_empty (oracle : Nat → CallOutcome) (valid : List String) :
    (∀ tables, select_relevant_tables oracle valid = Except.ok tables → tables ≠ []) ∧
    ((∀ n, ∃ t, oracle n = CallOutcome.ok t ∧
        (strStrip t = "" ∨ (parse_table_names t valid).isOk = false)) →
      select_relevant_tables oracle valid
        = Except.error (SelectError.domainError tableSelectionFailureMsg)) ∧
    (∀ m, oracle 0 = CallOutcome.otherError m →
      select_relevant_tables oracle valid
        = Except.error (SelectError.unavailable ("Unexpected error: " ++ m))) := by
  refine ⟨fun tables h => selectGo_ok_nonempty oracle valid 3 0 tables h,
    fun hbad => selectGo_all_bad oracle valid hbad 3 0, ?_⟩
  intro m h
  unfold select_relevant_tables selectGo call_openai_with_retry callRetryGo
  simp [h]

/-- C7 witness: with an oracle always answering a parseable-but-invalid
response, the domain error is raised after the attempts are exhausted;
the never-empty part is instantiated on the same run. -/
theorem C7_select_never_empty_witness :
    select_relevant_tables (fun _ => CallOutcome.ok "zzz") ["users"]
      = Except.error (SelectError.domainError tableSelectionFailureMsg) :=
  (C7_select_never_empty (fun _ => CallOutcome.ok "zzz") ["users"]).2.1
    (fun _ => ⟨"zzz", rfl, Or.inr (by decide)⟩)

/-- C5: cosine similarity equals 1 on any nonzero vector paired with
itself, equals 0 when either vector of an equal-length pair is all-zero,
and is symmetric. -/
theorem C5_cosine_similarity_props :
    (∀ v : List ℝ, (∃ x ∈ v, x ≠ 0) → cosine_similarity v v = some 1) ∧
    (∀ v w : List ℝ, v.length = w.length →
      ((∀ x ∈ v, x = 0) ∨ (∀ x ∈ w, x = 0)) → cosine_similarity v w = some 0) ∧
    (∀ v w : List ℝ, cosine_similarity v w = cosine_similarity w v) := by
  refine ⟨?_, ?_, ?_⟩
  · intro v hv
    have hs : 0 < ((v.map (fun a => a * a)).sum) := sum_sq_pos v hv
    have hsqrt : Real.sqrt ((v.map (fun a => a * a)).sum) ≠ 0 := by
      rw [ne_eq, Real.sqrt_eq_zero (le_of_lt hs)]
      exact ne_of_gt hs
    unfold cosine_similarity
    rw [if_neg (by simp)]
    dsimp only
    rw [if_neg (by tauto)]
    rw [List.zipWith_same]
    rw [Real.mul_self_sqrt (le_of_lt hs)]
    rw [div_self (ne_of_gt hs)]
  · intro v w hlen hzero
    have hguard : Real.sqrt ((v.map (fun a => a * a)).sum) = 0 ∨
        Real.sqrt ((w.map (fun b => b * b)).sum) = 0 := by
      rcases hzero with hz | hz
      · refine Or.inl ?_
        rw [Real.sqrt_eq_zero (sum_sq_nonneg v)]
        exact List.sum_eq_zero (by
          intro x hx
          rcases List.mem_map.1 hx with ⟨a, ha, rfl⟩
          rw [hz a ha]; ring)
      · refine Or.inr ?_
        rw [Real.sqrt_eq_zero (sum_sq_nonneg w)]
        exact List.sum_eq_zero (by
          intro x hx
          rcases List.mem_map.1 hx with ⟨a, ha, rfl⟩
          rw [hz a ha]; ring)
    unfold cosine_similarity
    rw [if_neg (by simp [hlen])]
    dsimp only
    rw [if_pos hguard]
  · intro v w
    have hdot : List.zipWith (fun a b => a * b) v w
        = List.zipWith (fun a b => a * b) w v := by
      induction v generalizing w with
      | nil => cases w <;> simp
      | cons a r ih =>
        cases w with
        | nil => simp
        | cons b s => simp [ih, mul_comm]
    unfold cosine_similarity
    dsimp only
    split_ifs with h1 h2 h3 h4 h5 <;>
      first
        | rfl
        | tauto
        | (rw [hdot, mul_comm])

/-- C5 witness: the nonzero-vector and all-zero parts instantiated at
concrete vectors. -/
theorem C5_cosine_similarity_props_witness :
    cosine_similarity [(1 : ℝ), 0] [(1 : ℝ), 0] = some 1 ∧
    cosine_similarity [(0 : ℝ), 0] [(3 : ℝ), 4] = some 0 :=
  ⟨C5_cosine_similarity_props.1 [(1 : ℝ), 0] ⟨1, by simp, one_ne_zero⟩,
   C5_cosine_similarity_props.2.1 [(0 : ℝ), 0] [(3 : ℝ), 4] (by simp)
     (Or.inl (fun x hx => by
       rcases List.mem_cons.1 hx with h | h
       · exact h
       · simpa using h))⟩

/-- C4: when the ranking path is taken (question embedding present, all
example embeddings present) and the maximum similarity reaches the
threshold with a nonempty result, the orchestrator returns the stored sql
of the first ranked example verbatim and makes zero generate_sql calls;
moreover that example has the maximum similarity among all computed
similarity scores. -/
theorem C4_short_circuit_returns_stored_sql
    (examples : List KBExample) (qEmb : List ℝ) (threshold : ℝ)
    (synthesize : List String → String) (kb : List KBExample) (maxSim : ℝ)
    (hava : examples.all (fun ex => ex.embedding.isSome) = true)
    (hfind : find_similar_examples examples (some qEmb) 3 = some (kb, maxSim))
    (hth : threshold ≤ maxSim) (hne : kb ≠ []) :
    generate_sql_pipeline examples qEmb threshold synthesize
      = some ((kb.headD default).sql, 0) ∧
    (∀ sims, simsOf examples qEmb = some sims →
      (∀ p ∈ sims, p.2 ≤ maxSim) ∧
      ∃ p ∈ sims, p.1 = kb.headD default ∧ p.2 = maxSim) := by
  constructor
  · unfold generate_sql_pipeline
    rw [hfind]
    unfold generate_sql_short_circuit
    dsimp only
    rw [if_pos ⟨hth, by simpa [List.isEmpty_iff] using hne⟩]
  · intro sims hsims
    unfold find_similar_examples at hfind
    dsimp only at hfind
    rw [if_neg (by simp [hava])] at hfind
    rw [hsims] at hfind
    dsimp only at hfind
    rw [Option.some.injEq, Prod.mk.injEq] at hfind
    obtain ⟨hkb, hmax⟩ := hfind
    have hperm : (sims.mergeSort (fun x y => decide (y.2 ≤ x.2))).Perm sims :=
      List.mergeSort_perm sims _
    have hpw : (sims.mergeSort (fun x y => decide (y.2 ≤ x.2))).Pairwise
        (fun a b => (decide (b.2 ≤ a.2)) = true) := by
      refine List.sorted_mergeSort ?_ ?_ sims
      · intro a b c hab hbc
        simp only [decide_eq_true_eq] at *
        exact le_trans hbc hab
      · intro a b
        simp only [Bool.or_eq_true, decide_eq_true_eq]
        exact le_total b.2 a.2
    rcases hsort : sims.mergeSort (fun x y => decide (y.2 ≤ x.2)) with _ | ⟨x, rest⟩
    · rw [hsort] at hkb
      simp only [List.take_nil, List.map_nil] at hkb
      exact absurd hkb.symm hne
    · rw [hsort] at hkb hmax hperm hpw
      simp only [] at hmax
      have hhead : ∀ b ∈ rest, (decide (b.2 ≤ x.2)) = true :=
        (List.pairwise_cons.1 hpw).1
      have hkbhead : kb.headD default = x.1 := by
        rw [← hkb]
        simp [List.take_succ_cons]
      constructor
      · intro p hp
        have hpin : p ∈ x :: rest := hperm.mem_iff.2 hp
        rcases List.mem_cons.1 hpin with rfl | hpr
        · rw [← hmax]
        · have := hhead p hpr
          simp only [decide_eq_true_eq] at this
          rw [← hmax]
          exact this
      · refine ⟨x, hperm.mem_iff.1 (by simp), hkbhead.symm, hmax⟩

/-- C4 witness: a single stored example with embedding [1] matched by the
question embedding [1] has similarity 1, which is at least the default
threshold 0.85, so the pipeline returns its stored SQL with zero
generate_sql calls. -/
theorem C4_short_circuit_returns_stored_sql_witness :
    generate_sql_pipeline [sampleKBExample] [(1 : ℝ)] rag_similarity_threshold
      (fun _ => "SYNTH") = some ("SELECT 1;", 0) := by
  have hcos : cosine_similarity [(1 : ℝ)] [(1 : ℝ)] = some 1 := by
    unfold cosine_similarity
    norm_num [Real.sqrt_one]
  have hsims : simsOf [sampleKBExample] [(1 : ℝ)]
      = some [(sampleKBExample, (1 : ℝ))] := by
    unfold simsOf sampleKBExample
    simp [hcos]
  have hfind : find_similar_examples [sampleKBExample] (some [(1 : ℝ)]) 3
      = some ([sampleKBExample], (1 : ℝ)) := by
    unfold find_similar_examples
    dsimp only
    rw [if_neg (by simp [sampleKBExample])]
    rw [hsims]
    simp [List.mergeSort_singleton]
  exact (C4_short_circuit_returns_stored_sql _ [(1 : ℝ)] rag_similarity_threshold
    (fun _ => "SYNTH") _ 1 (by simp [sampleKBExample]) hfind
    (by unfold rag_similarity_threshold; norm_num) (by simp)).1

/-- C9 (code bug): format_schema_for_llm does render a header line, a
Columns: block and a Foreign Keys: block with column → table.column
entries, but each column line joins its parts with bare spaces, giving
the form name (type NULL|NOT NULL [PRIMARY KEY] ) with a space before
the closing parenthesis and no commas, not the comma-separated form
name (type, NULL|NOT NULL[, PRIMARY KEY]) stated by the claim and by the
docstring of the function itself. -/
theorem C9_format_schema_diverges :
    format_schema_for_llm sampleSchema true true =
      "\nTable: users\n  Columns:\n    - id (integer NOT NULL PRIMARY KEY )\n    - role_id (integer NULL )\n  Foreign Keys:\n    - role_id → roles.id" ∧
    format_schema_for_llm sampleSchema true true ≠
      "\nTable: users\n  Columns:\n    - id (integer, NOT NULL, PRIMARY KEY)\n    - role_id (integer, NULL)\n  Foreign Keys:\n    - role_id → roles.id" := by
  constructor
  · decide
  · decide

/-- C1 (code bug): on a query attempt whose execution raises
QueryTimeoutError, execute_query_attempt sets status failed_execution
(with error message Query execution timeout), not the distinct timeout
status that the QueryStatus enumeration provides. -/
theorem C1_timeout_sets_failed_execution :
    (execute_query_attempt
      { id := 1, generated_sql := some "SELECT * FROM t;",
        status := QueryStatus.notExecuted, error_message := none,
        executed_at := none, execution_ms := none }
      DbOutcome.operationalTimeout 30 0).1.status = QueryStatus.failedExecution ∧
    (execute_query_attempt
      { id := 1, generated_sql := some "SELECT * FROM t;",
        status := QueryStatus.notExecuted, error_message := none,
        executed_at := none, execution_ms := none }
      DbOutcome.operationalTimeout 30 0).1.error_message = some "Query execution timeout" ∧
    QueryStatus.failedExecution ≠ QueryStatus.timeout := by
  refine ⟨by decide, by decide, by decide⟩

/-- C6: every manifest created by create_results_manifest has page size
500 and page count equal to the ceiling of total_rows divided by 500; in
particular 1234 rows give 3 pages, 1000 rows give 2 pages, and 0 rows
give 0 pages. -/
theorem C6_manifest_pagination :
    (∀ (qid : Nat) (result : QueryResult),
      (create_results_manifest qid result).page_size = 500 ∧
      (create_results_manifest qid result).page_count =
        result.total_rows ⌈/⌉ 500) ∧
    (create_results_manifest 1
      { columns := [], rows := [], total_rows := 1234, execution_ms := 0 }).page_count = 3 ∧
    (create_results_manifest 1
      { columns := [], rows := [], total_rows := 1000, execution_ms := 0 }).page_count = 2 ∧
    (create_results_manifest 1
      { columns := [], rows := [], total_rows := 0, execution_ms := 0 }).page_count = 0 := by
  refine ⟨fun qid result => ⟨rfl, ?_⟩, by decide, by decide, by decide⟩
  show (result.total_rows + 500 - 1) / 500 = result.total_rows ⌈/⌉ 500
  rw [Nat.ceilDiv_eq_add_pred_div]

/-- C10: calling execute_query_attempt on an attempt with no generated
SQL raises ValueError before any execution: the attempt is returned
unchanged and no results manifest is created. -/
theorem C10_no_sql_leaves_attempt_unchanged (a : QueryAttempt) (db : DbOutcome)
    (timeoutSec now : Nat) (h : a.generated_sql = none) :
    execute_query_attempt a db timeoutSec now =
      (a, none, AttemptOutcome.noSqlError "Query attempt has no generated SQL") := by
  unfold execute_query_attempt
  rw [h]
  rfl

/-- C10 witness: a concrete attempt with generated_sql none is left
unchanged. -/
theorem C10_no_sql_leaves_attempt_unchanged_witness :
    execute_query_attempt
      { id := 7, generated_sql := none, status := QueryStatus.notExecuted,
        error_message := some "previous", executed_at := some 5, execution_ms := some 9 }
      (DbOutcome.rowsReturned [] [] 0) 30 0 =
      ({ id := 7, generated_sql := none, status := QueryStatus.notExecuted,
         error_message := some "previous", executed_at := some 5, execution_ms := some 9 },
       none, AttemptOutcome.noSqlError "Query attempt has no generated SQL") :=
  C10_no_sql_leaves_attempt_unchanged
    { id := 7, generated_sql := none, status := QueryStatus.notExecuted,
      error_message := some "previous", executed_at := some 5, execution_ms := some 9 }
    (DbOutcome.rowsReturned [] [] 0) 30 0 rfl

end SQLAgent
